import Mathlib

/-
Verification of the Hello World API (FastAPI service in app/main.py).

The service is a stateless HTTP application with five declared routes
(GET /, GET /health, GET /hello, POST /greet, GET /info) plus the
framework-generated documentation routes (/openapi.json, /docs,
/docs/oauth2-redirect, /redoc), which the repository's test suite pins
as reachable (they respond 200).

The embedding below translates the handlers of app/main.py into pure
Lean functions.  Effects are made explicit as parameters: the value of
the ENVIRONMENT variable is an `Option String` (none = unset), and the
clock reading `datetime.utcnow().isoformat()` is a string parameter
`now` supplied at response-construction time.  JSON wire values are a
small inductive type; handler records mirror the pydantic models.
-/

namespace HelloWorldApi

/-- JSON values as exchanged on the wire. -/
inductive Json where
  | null : Json
  | bool (b : Bool) : Json
  | num (n : Int) : Json
  | str (s : String) : Json
  | arr (elems : List Json) : Json
  | obj (fields : List (String × Json)) : Json

/-- Field lookup in an association list of JSON object fields
(first binding wins, as in a JSON object with unique keys). -/
def lookupField (key : String) : List (String × Json) → Option Json
  | [] => none
  | (k, v) :: rest => if k = key then some v else lookupField key rest

/-- Field lookup on a JSON value: objects expose their fields, every
other value has none. -/
def Json.lookup (j : Json) (key : String) : Option Json :=
  match j with
  | .obj fields => lookupField key fields
  | _ => none

/-- Characters removed by Python's `str.strip()`: exactly the code
points for which `str.isspace()` holds (ASCII whitespace, the
information separators, NEL, and the Unicode space/separator code
points). -/
def pyIsSpace (c : Char) : Bool :=
  [9, 10, 11, 12, 13, 28, 29, 30, 31, 32, 0x85, 0xA0, 0x1680,
   0x2000, 0x2001, 0x2002, 0x2003, 0x2004, 0x2005, 0x2006, 0x2007,
   0x2008, 0x2009, 0x200A, 0x2028, 0x2029, 0x202F, 0x205F, 0x3000].contains c.toNat

/-- Python's `str.strip()`: remove leading and trailing whitespace. -/
def pyStrip (s : String) : String :=
  String.mk (((s.data.dropWhile pyIsSpace).reverse.dropWhile pyIsSpace).reverse)

/-- Response model of GET /health (pydantic `HealthResponse`). -/
structure HealthResponse where
  status : String
  timestamp : String
  environment : String
  version : String

/-- Response model of GET /hello (pydantic `HelloResponse`). -/
structure HelloResponse where
  message : String
  timestamp : String

/-- Request model of POST /greet (pydantic `GreetingRequest`):
one required field `name` of type `str`. -/
structure GreetingRequest where
  name : String

/-- Response model of POST /greet (pydantic `GreetingResponse`). -/
structure GreetingResponse where
  greeting : String
  timestamp : String

/-- FastAPI's `HTTPException` as raised by the greet handler. -/
structure HTTPException where
  status_code : Nat
  detail : String

/-- Reading `os.getenv("ENVIRONMENT", "development")`: the variable's
value when set, else the literal default. -/
def getenvEnvironment (env : Option String) : String :=
  env.getD "development"

/-- Body of the root handler's response:
`{"message": ..., "docs": "/docs", "health": "/health"}`. -/
def root : Json :=
  Json.obj [("message", Json.str "Welcome to Hello World API"),
            ("docs", Json.str "/docs"),
            ("health", Json.str "/health")]

/-- The health_check handler of GET /health. -/
def health_check (env : Option String) (now : String) : HealthResponse :=
  { status := "healthy"
    timestamp := now
    environment := getenvEnvironment env
    version := "1.0.0" }

/-- The hello handler of GET /hello. -/
def hello (now : String) : HelloResponse :=
  { message := "Hello, World!", timestamp := now }

/-- The guard of the greet handler, line 78 of app/main.py:
`not request.name or not request.name.strip()`.  A Python string is
falsy exactly when it is empty. -/
def greetRejects (name : String) : Bool :=
  name == "" || pyStrip name == ""

/-- The greet handler of POST /greet: reject blank names with a 400
HTTPException, otherwise greet with the original untrimmed name. -/
def greet (request : GreetingRequest) (now : String) :
    Except HTTPException GreetingResponse :=
  if greetRejects request.name then
    .error { status_code := 400, detail := "Name cannot be empty" }
  else
    .ok { greeting := "Hello, " ++ request.name ++ "!", timestamp := now }

/-- The endpoints list built by the info handler. -/
def endpointsJson : List Json :=
  [Json.obj [("path", Json.str "/"), ("method", Json.str "GET"),
             ("description", Json.str "Root endpoint")],
   Json.obj [("path", Json.str "/health"), ("method", Json.str "GET"),
             ("description", Json.str "Health check")],
   Json.obj [("path", Json.str "/hello"), ("method", Json.str "GET"),
             ("description", Json.str "Simple hello")],
   Json.obj [("path", Json.str "/greet"), ("method", Json.str "POST"),
             ("description", Json.str "Personalized greeting")],
   Json.obj [("path", Json.str "/info"), ("method", Json.str "GET"),
             ("description", Json.str "API information")]]

/-- The info handler of GET /info: a plain dict with name, version,
environment and the endpoints list (and no other field). -/
def info (env : Option String) : Json :=
  Json.obj [("name", Json.str "Hello World API"),
            ("version", Json.str "1.0.0"),
            ("environment", Json.str (getenvEnvironment env)),
            ("endpoints", Json.arr endpointsJson)]

/-- JSON serialization of a HealthResponse (field order of the model). -/
def HealthResponse.toJson (r : HealthResponse) : Json :=
  Json.obj [("status", Json.str r.status),
            ("timestamp", Json.str r.timestamp),
            ("environment", Json.str r.environment),
            ("version", Json.str r.version)]

/-- JSON serialization of a HelloResponse. -/
def HelloResponse.toJson (r : HelloResponse) : Json :=
  Json.obj [("message", Json.str r.message),
            ("timestamp", Json.str r.timestamp)]

/-- JSON serialization of a GreetingResponse. -/
def GreetingResponse.toJson (r : GreetingResponse) : Json :=
  Json.obj [("greeting", Json.str r.greeting),
            ("timestamp", Json.str r.timestamp)]

/-- An HTTP response: status code and JSON body (non-JSON bodies of
the documentation pages are abstracted as `Json.null`). -/
structure HttpResponse where
  status : Nat
  body : Json

/-- HTTP methods relevant to the route table. -/
inductive Method where
  | GET | POST | PUT | DELETE
deriving DecidableEq

/-- Pydantic validation of the POST /greet body against
`GreetingRequest`: succeeds exactly when the field `name` is present
and is a string (pydantic v2 does not coerce non-strings to `str`). -/
def parseGreeting (body : Json) : Option GreetingRequest :=
  match body.lookup "name" with
  | some (.str s) => some { name := s }
  | _ => none

/-- POST /greet at the HTTP level: schema validation first (422 with a
framework-generated per-field detail list, abstracted as null), then
the handler; an HTTPException renders as its status with a detail
message. -/
def postGreet (body : Json) (now : String) : HttpResponse :=
  match parseGreeting body with
  | none => { status := 422, body := Json.null }
  | some req =>
    match greet req now with
    | .error e => { status := e.status_code,
                    body := Json.obj [("detail", Json.str e.detail)] }
    | .ok r => { status := 200, body := r.toJson }

/-- The five routes declared in app/main.py. -/
def appRoutes : List (Method × String) :=
  [(.GET, "/"), (.GET, "/health"), (.GET, "/hello"),
   (.POST, "/greet"), (.GET, "/info")]

/-- The documentation routes FastAPI registers on the same router;
the test suite asserts GET /docs and GET /openapi.json respond 200. -/
def docsRoutes : List (Method × String) :=
  [(.GET, "/openapi.json"), (.GET, "/docs"),
   (.GET, "/docs/oauth2-redirect"), (.GET, "/redoc")]

/-- The full route table of the application. -/
def routeTable : List (Method × String) := appRoutes ++ docsRoutes

/-- Every path that appears in the route table. -/
def routePaths : List String := routeTable.map Prod.snd

/-- Default body of the router's 404 response. -/
def notFoundBody : Json := Json.obj [("detail", Json.str "Not Found")]

/-- Default body of the router's 405 response. -/
def methodNotAllowedBody : Json :=
  Json.obj [("detail", Json.str "Method Not Allowed")]

/-- The application: route an incoming (method, path) pair, producing
404 for unknown paths and 405 for known paths with an undeclared
method, and dispatch matched requests to the handler of the path
(no path carries two methods, so the path determines the handler).
Documentation pages respond 200 with a framework-generated body,
abstracted as null. -/
def handle (m : Method) (p : String) (body : Json)
    (env : Option String) (now : String) : HttpResponse :=
  if p ∉ routePaths then { status := 404, body := notFoundBody }
  else if (m, p) ∉ routeTable then
    { status := 405, body := methodNotAllowedBody }
  else if p = "/" then { status := 200, body := root }
  else if p = "/health" then
    { status := 200, body := (health_check env now).toJson }
  else if p = "/hello" then { status := 200, body := (hello now).toJson }
  else if p = "/greet" then postGreet body now
  else if p = "/info" then { status := 200, body := info env }
  else { status := 200, body := Json.null }

/-- Modelled from the spec: the guard the spec's simpler reading uses,
only the strip-emptiness check, with no extra falsiness disjunct. -/
def stripOnlyGuard (name : String) : Bool :=
  pyStrip name == ""

/-- One request-response interaction of the application, as a relation:
each constructor is one way the router can serve a request. -/
inductive Serves :
    Method → String → Json → Option String → String → HttpResponse → Prop where
  | rootRoute (b : Json) (e : Option String) (t : String) :
      Serves .GET "/" b e t { status := 200, body := root }
  | healthRoute (b : Json) (e : Option String) (t : String) :
      Serves .GET "/health" b e t
        { status := 200, body := (health_check e t).toJson }
  | helloRoute (b : Json) (e : Option String) (t : String) :
      Serves .GET "/hello" b e t { status := 200, body := (hello t).toJson }
  | greetRoute (b : Json) (e : Option String) (t : String) :
      Serves .POST "/greet" b e t (postGreet b t)
  | infoRoute (b : Json) (e : Option String) (t : String) :
      Serves .GET "/info" b e t { status := 200, body := info e }
  | docsRoute (p : String) (b : Json) (e : Option String) (t : String) :
      (Method.GET, p) ∈ docsRoutes →
      Serves .GET p b e t { status := 200, body := Json.null }
  | methodNotAllowed (m : Method) (p : String) (b : Json)
      (e : Option String) (t : String) :
      p ∈ routePaths → (m, p) ∉ routeTable →
      Serves m p b e t { status := 405, body := methodNotAllowedBody }
  | notFound (m : Method) (p : String) (b : Json)
      (e : Option String) (t : String) :
      p ∉ routePaths →
      Serves m p b e t { status := 404, body := notFoundBody }

end HelloWorldApi

namespace HelloWorldApi

lemma greetRejects_eq_strip (s : String) :
    greetRejects s = (pyStrip s == "") := by
  by_cases h : s = ""
  · subst h; rfl
  · have hb : (s == "") = false := beq_eq_false_iff_ne.mpr h
    simp [greetRejects, hb]

lemma postGreet_ok (s now : String) (h : pyStrip s ≠ "") :
    postGreet (Json.obj [("name", Json.str s)]) now =
      { status := 200,
        body := Json.obj [("greeting", Json.str ("Hello, " ++ s ++ "!")),
                          ("timestamp", Json.str now)] } := by
  have hg : greetRejects s = false := by
    rw [greetRejects_eq_strip]; exact beq_eq_false_iff_ne.mpr h
  have hp : parseGreeting (Json.obj [("name", Json.str s)]) =
      some { name := s } := rfl
  simp [postGreet, hp, greet, hg, GreetingResponse.toJson]

lemma serves_handle {m : Method} {p : String} {b : Json}
    {e : Option String} {t : String} {r : HttpResponse}
    (h : Serves m p b e t r) : handle m p b e t = r := by
  cases h with
  | rootRoute b e t => rfl
  | healthRoute b e t => rfl
  | helloRoute b e t => rfl
  | greetRoute b e t => rfl
  | infoRoute b e t => rfl
  | docsRoute p b e t hmem =>
    simp [docsRoutes] at hmem
    rcases hmem with h1 | h1 | h1 | h1 <;> subst h1 <;> rfl
  | methodNotAllowed m p b e t h1 h2 => simp [handle, h1, h2]
  | notFound m p b e t h1 => simp [handle, h1]

/-- C1: for every name that is non-blank after stripping, POST /greet
with that name responds 200 with greeting "Hello, " ++ s ++ "!" built
from the original untrimmed input. -/
theorem greet_returns_untrimmed_greeting (s now : String)
    (h : pyStrip s ≠ "") :
    postGreet (Json.obj [("name", Json.str s)]) now =
      { status := 200,
        body := Json.obj [("greeting", Json.str ("Hello, " ++ s ++ "!")),
                          ("timestamp", Json.str now)] } :=
  postGreet_ok s now h

/-- Witness for C1 at the untrimmed name " Alice ". -/
theorem greet_returns_untrimmed_greeting_witness :
    pyStrip " Alice " ≠ "" ∧
    postGreet (Json.obj [("name", Json.str " Alice ")]) "2024-01-01T00:00:00" =
      { status := 200,
        body := Json.obj
          [("greeting", Json.str ("Hello, " ++ " Alice " ++ "!")),
           ("timestamp", Json.str "2024-01-01T00:00:00")] } :=
  ⟨by decide,
   greet_returns_untrimmed_greeting " Alice " "2024-01-01T00:00:00" (by decide)⟩

/-- C2 counterexample: the GET /info response contains no timestamp
field at all, so not every endpoint response carries one. -/
theorem info_response_has_no_timestamp :
    (handle .GET "/info" Json.null (some "production")
        "2024-01-01T00:00:00").body.lookup "timestamp" = none := rfl

/-- C2 (amended): the GET /health, GET /hello and successful
POST /greet responses carry a timestamp field equal to the
construction-time clock reading; the GET /info response has no
timestamp field. -/
theorem timestamp_field_amended (env : Option String) (now : String)
    (b : Json) :
    (handle .GET "/health" b env now).body.lookup "timestamp" =
      some (Json.str now) ∧
    (handle .GET "/hello" b env now).body.lookup "timestamp" =
      some (Json.str now) ∧
    (∀ s, pyStrip s ≠ "" →
      (handle .POST "/greet" (Json.obj [("name", Json.str s)]) env
          now).body.lookup "timestamp" = some (Json.str now)) ∧
    (handle .GET "/info" b env now).body.lookup "timestamp" = none := by
  refine ⟨rfl, rfl, ?_, rfl⟩
  intro s h
  show (postGreet (Json.obj [("name", Json.str s)]) now).body.lookup
      "timestamp" = some (Json.str now)
  rw [postGreet_ok s now h]
  rfl

/-- Witness for C2 (amended) at a concrete request. -/
theorem timestamp_field_amended_witness :
    (handle .POST "/greet" (Json.obj [("name", Json.str "Bob")]) none
        "2024-01-01T00:00:00").body.lookup "timestamp" =
      some (Json.str "2024-01-01T00:00:00") :=
  (timestamp_field_amended none "2024-01-01T00:00:00" Json.null).2.2.1
    "Bob" (by decide)

/-- C3: with a string name present in the body, POST /greet responds
400 with detail "Name cannot be empty" exactly when the name strips to
the empty string, and responds 200 otherwise. -/
theorem greet_blank_name_400_iff (s now : String) :
    (postGreet (Json.obj [("name", Json.str s)]) now =
        { status := 400,
          body := Json.obj [("detail", Json.str "Name cannot be empty")] }
      ↔ pyStrip s = "") ∧
    (pyStrip s ≠ "" →
      (postGreet (Json.obj [("name", Json.str s)]) now).status = 200) := by
  have hp : parseGreeting (Json.obj [("name", Json.str s)]) =
      some { name := s } := rfl
  constructor
  · constructor
    · intro heq
      by_cases hs : pyStrip s = ""
      · exact hs
      · rw [postGreet_ok s now hs] at heq
        simp at heq
    · intro hs
      have hg : greetRejects s = true := by
        rw [greetRejects_eq_strip]; exact beq_iff_eq.mpr hs
      simp [postGreet, hp, greet, hg]
  · intro h
    rw [postGreet_ok s now h]

/-- Witness for C3 at a blank and a non-blank name. -/
theorem greet_blank_name_400_iff_witness :
    postGreet (Json.obj [("name", Json.str "   ")]) "T" =
      { status := 400,
        body := Json.obj [("detail", Json.str "Name cannot be empty")] } ∧
    (postGreet (Json.obj [("name", Json.str "Ann")]) "T").status = 200 :=
  ⟨(greet_blank_name_400_iff "   " "T").1.mpr (by decide),
   (greet_blank_name_400_iff "Ann" "T").2 (by decide)⟩

/-- C4: when the body has no name field or its name value is not a
string, POST /greet responds 422 from schema validation, so neither
the 400 branch nor a GreetingResponse is reached. -/
theorem greet_schema_validation_422 (body : Json) (now : String)
    (h : ∀ s, body.lookup "name" ≠ some (Json.str s)) :
    postGreet body now = { status := 422, body := Json.null } := by
  have hp : parseGreeting body = none := by
    unfold parseGreeting
    cases hl : body.lookup "name" with
    | none => rfl
    | some j =>
      cases j with
      | str s => exact absurd hl (h s)
      | null => rfl
      | bool b => rfl
      | num n => rfl
      | arr elems => rfl
      | obj fields => rfl
  simp [postGreet, hp]

/-- Witness for C4 at a body missing the name field and at a body with
a numeric name. -/
theorem greet_schema_validation_422_witness :
    postGreet (Json.obj []) "T" = { status := 422, body := Json.null } ∧
    postGreet (Json.obj [("name", Json.num 3)]) "T" =
      { status := 422, body := Json.null } :=
  ⟨greet_schema_validation_422 (Json.obj []) "T"
      (fun s h => by simp [Json.lookup, lookupField] at h),
   greet_schema_validation_422 (Json.obj [("name", Json.num 3)]) "T"
      (fun s h => by simp [Json.lookup, lookupField] at h)⟩

/-- C5: the environment field of GET /health and GET /info equals the
ENVIRONMENT variable's value when set and "development" when unset,
and the two endpoints always agree on it. -/
theorem environment_field_agrees (now : String) :
    (∀ v, (health_check (some v) now).environment = v ∧
      (info (some v)).lookup "environment" = some (Json.str v)) ∧
    ((health_check none now).environment = "development" ∧
      (info none).lookup "environment" =
        some (Json.str "development")) ∧
    (∀ env, (info env).lookup "environment" =
      some (Json.str (health_check env now).environment)) :=
  ⟨fun _ => ⟨rfl, rfl⟩, ⟨rfl, rfl⟩, fun _ => rfl⟩

/-- C6: the endpoints list of GET /info has exactly five entries whose
paths, methods and descriptions appear in the declared order. -/
theorem info_endpoints_list (env : Option String) :
    (info env).lookup "endpoints" = some (Json.arr endpointsJson) ∧
    endpointsJson.length = 5 ∧
    endpointsJson.map (fun e => e.lookup "path") =
      [some (Json.str "/"), some (Json.str "/health"),
       some (Json.str "/hello"), some (Json.str "/greet"),
       some (Json.str "/info")] ∧
    endpointsJson.map (fun e => e.lookup "method") =
      [some (Json.str "GET"), some (Json.str "GET"),
       some (Json.str "GET"), some (Json.str "POST"),
       some (Json.str "GET")] ∧
    endpointsJson.map (fun e => e.lookup "description") =
      [some (Json.str "Root endpoint"), some (Json.str "Health check"),
       some (Json.str "Simple hello"),
       some (Json.str "Personalized greeting"),
       some (Json.str "API information")] :=
  ⟨rfl, rfl, rfl, rfl, rfl⟩

/-- C7 counterexample: GET /docs is outside the five declared routes,
yet the router responds 200 rather than 404 (the repository's test
suite asserts exactly this). -/
theorem docs_route_not_404 :
    "/docs" ∉ appRoutes.map Prod.snd ∧
    (handle .GET "/docs" Json.null none "T").status = 200 :=
  ⟨by decide, rfl⟩

/-- C7 (amended): a path outside the full route table (the five
declared routes plus the framework documentation routes) yields 404,
and a route-table path requested with an undeclared method yields 405,
both produced by the router before any handler. -/
theorem routing_404_405 (m : Method) (p : String) (body : Json)
    (env : Option String) (now : String) :
    (p ∉ routePaths →
      handle m p body env now = { status := 404, body := notFoundBody }) ∧
    (p ∈ routePaths → (m, p) ∉ routeTable →
      handle m p body env now =
        { status := 405, body := methodNotAllowedBody }) := by
  constructor
  · intro h
    simp [handle, h]
  · intro h1 h2
    simp [handle, h1, h2]

/-- Witness for C7 (amended): an unknown path yields 404 and
POST /hello yields 405. -/
theorem routing_404_405_witness :
    handle .GET "/nonexistent" Json.null none "T" =
      { status := 404, body := notFoundBody } ∧
    handle .POST "/hello" Json.null none "T" =
      { status := 405, body := methodNotAllowedBody } :=
  ⟨(routing_404_405 .GET "/nonexistent" Json.null none "T").1 (by decide),
   (routing_404_405 .POST "/hello" Json.null none "T").2 (by decide)
     (by decide)⟩

/-- C8: the implemented guard `not name or not name.strip()` accepts
and rejects exactly the same names as the plain strip-emptiness check,
so its first disjunct is redundant. -/
theorem guard_redundant_disjunct (s : String) :
    greetRejects s = stripOnlyGuard s := by
  rw [greetRejects_eq_strip]; rfl

/-- C9: whenever the greet handler succeeds, the greeting embeds the
submitted name verbatim and that name is non-blank after stripping. -/
theorem greet_success_invariant (s now : String) (r : GreetingResponse)
    (h : greet { name := s } now = .ok r) :
    r.greeting = "Hello, " ++ s ++ "!" ∧ pyStrip s ≠ "" := by
  by_cases hg : greetRejects s = true
  · simp [greet, hg] at h
  · have hg' : greetRejects s = false := by
      simpa using hg
    have hs : pyStrip s ≠ "" := by
      rw [greetRejects_eq_strip] at hg'
      exact beq_eq_false_iff_ne.mp hg'
    simp [greet, hg'] at h
    exact ⟨by rw [← h], hs⟩

/-- Witness for C9 at the name Bob. -/
theorem greet_success_invariant_witness :
    ("Hello, Bob!" : String) = "Hello, " ++ "Bob" ++ "!" ∧
    pyStrip "Bob" ≠ "" :=
  greet_success_invariant "Bob" "T"
    { greeting := "Hello, Bob!", timestamp := "T" } rfl

/-- C10: the application is deterministic: two served interactions
with the same method, path, body, environment value and clock reading
produce the same response. -/
theorem handlers_deterministic {m : Method} {p : String} {b : Json}
    {e : Option String} {t : String} {r₁ r₂ : HttpResponse}
    (h₁ : Serves m p b e t r₁) (h₂ : Serves m p b e t r₂) : r₁ = r₂ :=
  (serves_handle h₁).symm.trans (serves_handle h₂)

/-- Witness for C10 at two derivations of the root interaction. -/
theorem handlers_deterministic_witness :
    ({ status := 200, body := root } : HttpResponse) =
      { status := 200, body := root } :=
  handlers_deterministic (Serves.rootRoute Json.null none "T")
    (Serves.rootRoute Json.null none "T")

end HelloWorldApi
